import Mathlib

/-!
Shallow embedding of the extraction orchestration pipeline of
`apps/api/src/controllers/v1/extract.ts` (function `extractController` and its
helper `filterAndProcessLinks`), together with theorems checking the
natural-language specification against it.

Modelling conventions:
* JavaScript numbers that carry relevance scores are modelled as exact
  rationals (`ℚ`); the thresholds 0.75 and 0.5 and all concrete scores used
  below are exactly representable in binary floating point, so the comparisons
  performed by the source coincide with the rational ones.
* `Math.floor` over non-negative quantities becomes natural-number division.
* External collaborators (`getMapResults`, `performRanking`,
  `generateBasicCompletion`, `isUrlBlocked`, the scrape queue and the
  completion service) are parameters of the embedding, supplied through
  environment records: the controller only sequences their results.
* The shared mutable `urlTraces` array is threaded explicitly; the parallel
  `Promise.all` loops are linearised in input order (the spec itself declares
  that global ordering is not guaranteed and the ledger is keyed by URL).
* Timestamps (`new Date().toISOString()`) are opaque strings supplied by the
  environment.
-/

namespace Extract

/-! ### String helpers

Core `String` functions such as `splitOn`/`endsWith` are not used because the
claims are settled by kernel evaluation; the helpers below are structural
recursions over the underlying character list with the same meaning as the
JavaScript operations they model (`String.prototype.includes` and
single-occurrence `String.prototype.replace`). -/

/-- Whether `pat` is an initial segment of the character list. -/
def startsSeq : List Char → List Char → Bool
  | [], _ => true
  | _ :: _, [] => false
  | p :: ps, c :: cs => p == c && startsSeq ps cs

/-- Whether `pat` occurs contiguously in the character list
(JavaScript `includes`). -/
def containsSeq (pat : List Char) : List Char → Bool
  | [] => pat.isEmpty
  | c :: cs => startsSeq pat (c :: cs) || containsSeq pat cs

/-- Remove the first occurrence of `pat` (JavaScript `replace(pat, "")`,
which only substitutes the first match). -/
def removeFirstSeq (pat : List Char) : List Char → List Char
  | [] => []
  | c :: cs =>
    if startsSeq pat (c :: cs) then (c :: cs).drop pat.length
    else c :: removeFirstSeq pat cs

/-- JavaScript `url.includes("/*")`. -/
def hasGlobPattern (u : String) : Bool := containsSeq "/*".data u.data

/-- JavaScript `s.replace(pat, "")` (first occurrence only). -/
def replaceFirst (s pat : String) : String := ⟨removeFirstSeq pat.data s.data⟩

/-- Truthiness of an optional string (`undefined` and `""` are falsy). -/
def truthy : Option String → Bool
  | none => false
  | some s => !(s == "")

/-! ### Constants of the controller -/

def MAX_EXTRACT_LIMIT : Nat := 100
def MAX_RANKING_LIMIT : Nat := 10
def INITIAL_SCORE_THRESHOLD : ℚ := mkRat 3 4
def FALLBACK_SCORE_THRESHOLD : ℚ := mkRat 1 2
def MIN_REQUIRED_LINKS : Nat := 1

/-- The constant `earlyReturn` of `extractController` (always `false`). -/
def earlyReturn : Bool := false

/-! ### Data model -/

inductive TraceStatus where
  | mapped
  | scraped
  | error
deriving DecidableEq, Repr

structure Timing where
  discoveredAt : String
  scrapedAt : Option String := none
  completedAt : Option String := none
deriving DecidableEq, Repr

structure ContentStats where
  rawContentLength : Nat
  processedContentLength : Nat
  tokensUsed : Nat
deriving DecidableEq, Repr

structure URLTrace where
  url : String
  status : TraceStatus
  timing : Timing
  relevanceScore : Option ℚ := none
  usedInCompletion : Option Bool := none
  warning : Option String := none
  error : Option String := none
  contentStats : Option ContentStats := none
deriving DecidableEq, Repr

structure MapDocument where
  url : String
  title : String
  description : String
deriving DecidableEq, Repr

/-- One entry of the list returned by `performRanking`. -/
structure LinkScore where
  link : String
  linkWithContext : String
  score : ℚ
  originalIndex : Nat
deriving DecidableEq, Repr

/-- A fetched document; `sourceURL` stands for `doc.metadata?.sourceURL` and
`markdown` for `doc.markdown` (both optional in the source). -/
structure Document where
  markdown : Option String := none
  sourceURL : Option String := none
deriving DecidableEq, Repr

/-- The request body fields read by the controller. -/
structure ExtractRequest where
  urls : List String
  prompt : Option String := none
  allowExternalLinks : Bool := false
  includeSubdomains : Bool := false
  limit : Option Nat := none
  timeout : Option Nat := none
  origin : Option String := none
  systemPrompt : Option String := none
deriving Repr

/-! ### Deduplication (modelled from the spec)

Modelled from the spec: `removeDuplicateUrls` lives in `lib/validateUrl`,
which is not part of the provided source tree; the spec describes it as
case/trailing-slash-insensitive deduplication of the merged discovered-URL
list. -/

/-- Lowercase an ASCII letter, identity elsewhere. -/
def lowerChar (c : Char) : Char :=
  if 65 ≤ c.toNat ∧ c.toNat ≤ 90 then Char.ofNat (c.toNat + 32) else c

/-- Modelled from the spec: the normal form under which two URLs count as
duplicates — lowercase, with one trailing slash removed. -/
def normalizeUrl (u : String) : String :=
  let l : List Char := u.data.map lowerChar
  match l.reverse with
  | '/' :: rest => ⟨rest.reverse⟩
  | _ => ⟨l⟩

/-- Modelled from the spec: `removeDuplicateUrls` keeps the first occurrence
of every URL up to `normalizeUrl`. -/
def removeDuplicateUrls (urls : List String) : List String :=
  urls.foldl
    (fun acc u =>
      if acc.any (fun v => normalizeUrl v == normalizeUrl u) then acc
      else acc ++ [u])
    []

/-! ### Relevance filter (`filterAndProcessLinks` and lines 142–223) -/

/-- The helper `filterAndProcessLinks` of the source: keep the scores above
`threshold`, look the links up among `mappedLinks`, and drop lookups that
fail or point at blocked URLs. -/
def filterAndProcessLinks (isUrlBlocked : String → Bool)
    (mappedLinks : List MapDocument) (linksAndScores : List LinkScore)
    (threshold : ℚ) : List MapDocument :=
  ((linksAndScores.filter (fun x => threshold < x.score)).filterMap
      (fun x => mappedLinks.find? (fun link => link.url == x.link))).filter
    (fun x => !isUrlBlocked x.url)

/-- Stable insertion into a list sorted by descending score; models the
comparator `(a, b) => b.score - a.score` of `Array.prototype.sort`. -/
def insertByScoreDesc (x : LinkScore) : List LinkScore → List LinkScore
  | [] => [x]
  | y :: ys => if y.score ≤ x.score then x :: y :: ys else y :: insertByScoreDesc x ys

/-- Stable sort by descending score (`linksAndScores.sort((a, b) => b.score - a.score)`). -/
def sortByScoreDesc : List LinkScore → List LinkScore
  | [] => []
  | x :: xs => insertByScoreDesc x (sortByScoreDesc xs)

/-- The top-1 fallback of the cascade (source lines 179–188): sort by
descending score, keep the first `MIN_REQUIRED_LINKS`, look them up among
`mappedLinks` and drop failures and blocked URLs. -/
def takeTopLinks (isUrlBlocked : String → Bool) (mappedLinks : List MapDocument)
    (linksAndScores : List LinkScore) : List MapDocument :=
  ((((sortByScoreDesc linksAndScores).take MIN_REQUIRED_LINKS).filterMap
      (fun x => mappedLinks.find? (fun link => link.url == x.link))).filter
    (fun x => !isUrlBlocked x.url))

/-- The cascading acceptance policy (source lines 156–190): threshold 0.75,
then 0.5 when fewer than `MIN_REQUIRED_LINKS` survive, then the top-1
fallback when still empty. -/
def selectRelevantLinks (isUrlBlocked : String → Bool)
    (mappedLinks : List MapDocument) (linksAndScores : List LinkScore) :
    List MapDocument :=
  let filteredLinks :=
    filterAndProcessLinks isUrlBlocked mappedLinks linksAndScores INITIAL_SCORE_THRESHOLD
  if filteredLinks.length < MIN_REQUIRED_LINKS then
    let filteredLinks :=
      filterAndProcessLinks isUrlBlocked mappedLinks linksAndScores FALLBACK_SCORE_THRESHOLD
    if filteredLinks.length = 0 then
      takeTopLinks isUrlBlocked mappedLinks linksAndScores
    else filteredLinks
  else filteredLinks

/-- Update the first trace whose `url` matches (`urlTraces.find(...)` followed
by in-place mutation); no-op when absent. -/
def updateTraceByUrl (traces : List URLTrace) (u : String)
    (f : URLTrace → URLTrace) : List URLTrace :=
  match traces with
  | [] => []
  | t :: ts => if t.url == u then f t :: ts else t :: updateTraceByUrl ts u f

/-- Source lines 192–203: record every relevance score on its trace and mark
the candidates that did not survive the cascade.  The numeric interpolation
inside the warning text is elided. -/
def updateTracesWithScores (traces : List URLTrace)
    (linksAndScores : List LinkScore) (filteredLinks : List MapDocument) :
    List URLTrace :=
  linksAndScores.foldl
    (fun acc score =>
      updateTraceByUrl acc score.link (fun t =>
        let t := { t with relevanceScore := some score.score }
        if !(filteredLinks.any (fun link => link.url == score.link)) then
          { t with warning := some "Relevance score below threshold",
                   usedInCompletion := some false }
        else t))
    traces

/-- Source lines 208–213: mark the URLs that will be used in the completion. -/
def markUsedInCompletion (traces : List URLTrace)
    (mappedLinks : List MapDocument) : List URLTrace :=
  mappedLinks.foldl
    (fun acc link =>
      updateTraceByUrl acc link.url (fun t => { t with usedInCompletion := some true }))
    traces

/-- Source lines 216–222: mark the accepted URLs dropped by the ranking cap. -/
def markRankingLimited (traces : List URLTrace)
    (dropped : List MapDocument) : List URLTrace :=
  dropped.foldl
    (fun acc link =>
      updateTraceByUrl acc link.url (fun t =>
        { t with warning := some "Excluded due to ranking limit",
                 usedInCompletion := some false }))
    traces

/-- The whole relevance-filter stage (source lines 156–223): cascade, trace
score updates, truncation to `MAX_RANKING_LIMIT`, and the used/dropped
markings.  Returns the truncated accepted list and the updated ledger. -/
def relevanceFilterStage (isUrlBlocked : String → Bool)
    (mappedLinks : List MapDocument) (linksAndScores : List LinkScore)
    (traces : List URLTrace) : List MapDocument × List URLTrace :=
  let filteredLinks := selectRelevantLinks isUrlBlocked mappedLinks linksAndScores
  let traces := updateTracesWithScores traces linksAndScores filteredLinks
  let mappedLinks2 := filteredLinks.take MAX_RANKING_LIMIT
  let traces := markUsedInCompletion traces mappedLinks2
  let traces := markRankingLimited traces (filteredLinks.drop MAX_RANKING_LIMIT)
  (mappedLinks2, traces)

/-! ### URL resolution (source lines 62–257) -/

/-- The pair returned by `getMapResults`: structured candidates plus raw links. -/
structure MapResultsOutcome where
  mapResults : List MapDocument
  links : List String
deriving Repr

/-- External collaborators consumed during resolution.  `rephrase` models
`generateBasicCompletion(buildRefrasedPrompt(prompt, baseUrl))`.
Modelled from the spec: `generateBasicCompletion` (in `lib/LLM-extraction`,
not part of the provided source tree) returns the completion or null on
failure, which the controller replaces by the original prompt via `??`. -/
structure ResolveEnv where
  isUrlBlocked : String → Bool
  rephrase : String → String → Option String
  getMapResults : String → Option String → Except String MapResultsOutcome
  performRanking : List String → List String → String → Except String (List LinkScore)
  now : String

/-- The trace pushed for an input URL on entry (source lines 64–71). -/
def newTrace (url now : String) : URLTrace :=
  { url := url, status := .mapped, timing := { discoveredAt := now } }

/-- The mutation performed by the `catch` of the per-URL resolution task and
by the blocked-direct-URL branch: `status='error'`, `error` set,
`usedInCompletion=false`, applied to the task's own trace (position `i`). -/
def setTraceErrorAt (traces : List URLTrace) (i : Nat) (msg : String) :
    List URLTrace :=
  traces.modify
    (fun t => { t with status := .error, error := some msg, usedInCompletion := some false }) i

/-- Source lines 108–119: push a trace for every discovered URL not seen yet. -/
def addDiscoveredTraces (traces : List URLTrace) (uniqueUrls : List String)
    (now : String) : List URLTrace :=
  uniqueUrls.foldl
    (fun acc discoveredUrl =>
      if acc.any (fun t => t.url == discoveredUrl) then acc
      else acc ++ [{ url := discoveredUrl, status := .mapped,
                     timing := { discoveredAt := now },
                     usedInCompletion := some false }])
    traces

/-- Source lines 79–85: the optionally rephrased prompt, falling back to the
original prompt when the completion collaborator yields null. -/
def rephrasedPromptFor (env : ResolveEnv) (body : ExtractRequest)
    (baseUrl : String) : Option String :=
  if truthy body.prompt then
    some ((env.rephrase (body.prompt.getD "") baseUrl).getD (body.prompt.getD ""))
  else body.prompt

/-- Source lines 103–105: the merged discovered-URL list after deduplication. -/
def discoveredUrls (mo : MapResultsOutcome) : List String :=
  removeDuplicateUrls (mo.mapResults.map (fun m => m.url) ++ mo.links)

/-- Source lines 101–135: the candidate list — structured map results, plus
the deduplicated raw links not already present, falling back to the bare base
URL when empty, capped at `MAX_EXTRACT_LIMIT`. -/
def candidateLinks (mo : MapResultsOutcome) (baseUrl : String) :
    List MapDocument :=
  let mappedLinks := mo.mapResults
  let uniqueUrls := discoveredUrls mo
  let existingUrls := mappedLinks.map (fun m => m.url)
  let newUrls := uniqueUrls.filter (fun u => !(existingUrls.contains u))
  let mappedLinks :=
    mappedLinks ++ newUrls.map (fun u => { url := u, title := "", description := "" })
  let mappedLinks :=
    if mappedLinks.isEmpty then [{ url := baseUrl, title := "", description := "" }]
    else mappedLinks
  mappedLinks.take MAX_EXTRACT_LIMIT

/-- Source lines 137–140: the textual rendering scored by `performRanking`. -/
def rerankContexts (links : List MapDocument) : List String :=
  links.map (fun x =>
    "url: " ++ x.url ++ ", title: " ++ x.title ++ ", description: " ++ x.description)

/-- Source lines 143–148: the search query handed to the scorer. -/
def searchQueryFor (body : ExtractRequest) (urlWithoutWww : String) : String :=
  if truthy body.prompt && body.allowExternalLinks then
    body.prompt.getD "" ++ " " ++ urlWithoutWww
  else if truthy body.prompt then
    body.prompt.getD "" ++ " site:" ++ urlWithoutWww
  else "site:" ++ urlWithoutWww

/-- The glob-pattern branch of the per-URL resolution task (source lines
73–231).  `selfIdx` is the position of the task's own trace in the ledger;
errors of the discovery and ranking collaborators are caught here and
recorded on that trace only. -/
def processGlobUrl (env : ResolveEnv) (body : ExtractRequest) (url : String)
    (traces : List URLTrace) (selfIdx : Nat) : List String × List URLTrace :=
  let baseUrl := replaceFirst url "/*"
  let urlWithoutWww := replaceFirst baseUrl "www."
  match env.getMapResults baseUrl (rephrasedPromptFor env body baseUrl) with
  | .error e => ([], setTraceErrorAt traces selfIdx e)
  | .ok mapOutcome =>
    let traces := addDiscoveredTraces traces (discoveredUrls mapOutcome) env.now
    let mappedLinks := candidateLinks mapOutcome baseUrl
    if truthy body.prompt then
      match env.performRanking (rerankContexts mappedLinks)
          (mappedLinks.map (fun l => l.url)) (searchQueryFor body urlWithoutWww) with
      | .error e => ([], setTraceErrorAt traces selfIdx e)
      | .ok linksAndScores =>
        let (finalLinks, traces) :=
          relevanceFilterStage env.isUrlBlocked mappedLinks linksAndScores traces
        (finalLinks.map (fun x => x.url), traces)
    else (mappedLinks.map (fun x => x.url), traces)

/-- One per-input-URL resolution task (source lines 63–243): push the task's
own trace, then either the glob branch or the direct-URL branch. -/
def processUrl (env : ResolveEnv) (body : ExtractRequest) (url : String)
    (traces0 : List URLTrace) : List String × List URLTrace :=
  let selfIdx := traces0.length
  let traces := traces0 ++ [newTrace url env.now]
  if hasGlobPattern url || body.allowExternalLinks then
    processGlobUrl env body url traces selfIdx
  else if !env.isUrlBlocked url then
    ([url],
     traces.modify (fun t => { t with usedInCompletion := some true }) selfIdx)
  else
    ([], setTraceErrorAt traces selfIdx "URL is blocked")

/-- All resolution tasks, linearised in input order over the shared ledger. -/
def processUrls (env : ResolveEnv) (body : ExtractRequest) :
    List (List String) × List URLTrace :=
  body.urls.foldl
    (fun acc url =>
      let (urls, traces) := processUrl env body url acc.2
      (acc.1 ++ [urls], traces))
    ([], [])

/-- Source lines 245–248: flatten the per-URL results and drop falsy
(empty-string) entries. -/
def resolveLinks (env : ResolveEnv) (body : ExtractRequest) :
    List String × List URLTrace :=
  let (processedUrls, urlTraces) := processUrls env body
  ((processedUrls.flatten).filter (fun u => !(u == "")), urlTraces)

/-! ### Fetch stage (source lines 259–329) -/

/-- Source line 268: the effective per-fetch timeout,
`Math.floor((req.body.timeout || 40000) * 0.7) || 30000`.  A missing or zero
request timeout is falsy and replaced by 40000 before scaling; the outer
`|| 30000` fires only when the scaled value itself is 0. -/
def computeTimeout (timeout? : Option Nat) : Nat :=
  let base := match timeout? with
    | none => 40000
    | some n => if n = 0 then 40000 else n
  let scaled := base * 7 / 10
  if scaled = 0 then 30000 else scaled

/-- Environment of the fetch and aggregation stages.  `waitForJob` is keyed
by URL (the actual job id is a fresh UUID); it models the submitted job's
resolution or failure/timeout. -/
structure CompletionsResult where
  extract : Option String := none
  warning : Option String := none
  numTokens : Nat := 0
deriving DecidableEq, Repr

structure FetchEnv where
  waitForJob : String → Except String Document
  completions : List Document → CompletionsResult
  now : String

/-- Observable outcome of one scrape task: the returned document (if any) and
whether `getScrapeQueue().remove(jobId)` was reached. -/
structure ScrapeOutcome where
  doc : Option Document
  removedFromQueue : Bool
deriving DecidableEq, Repr

/-- One scrape task (source lines 260–317): mark the trace `scraped`, wait
for the job, and on success remove the job from the queue and record content
stats; on failure mark the trace `error`.  The `catch` yields no document and
never reaches the queue removal. -/
def scrapeOne (fenv : FetchEnv) (url : String) (traces : List URLTrace) :
    ScrapeOutcome × List URLTrace :=
  let traces := updateTraceByUrl traces url (fun t =>
    { t with status := .scraped,
             timing := { t.timing with scrapedAt := some fenv.now } })
  match fenv.waitForJob url with
  | .ok doc =>
    let traces := updateTraceByUrl traces url (fun t =>
      { t with timing := { t.timing with completedAt := some fenv.now },
               contentStats := some
                 { rawContentLength := (doc.markdown.getD "").length,
                   processedContentLength := (doc.markdown.getD "").length,
                   tokensUsed := 0 } })
    ({ doc := if earlyReturn then none else some doc, removedFromQueue := true }, traces)
  | .error e =>
    let traces := updateTraceByUrl traces url (fun t =>
      { t with status := .error, error := some e })
    ({ doc := none, removedFromQueue := false }, traces)

/-- All scrape tasks (source lines 260–322), linearised; collects the
non-null documents in order plus the queue-removal flags. -/
def runScrapeStage (fenv : FetchEnv) (links : List String)
    (traces : List URLTrace) : List Document × List Bool × List URLTrace :=
  links.foldl
    (fun acc url =>
      let (out, traces) := scrapeOne fenv url acc.2.2
      (acc.1 ++ (match out.doc with | some d => [d] | none => []),
       acc.2.1 ++ [out.removedFromQueue], traces))
    ([], [], traces)

/-! ### Token attribution (source lines 347–361) -/

/-- JavaScript `doc.markdown?.length || 0`. -/
def docContentLength (doc : Document) : Nat := (doc.markdown.getD "").length

/-- The per-document attribution
`Math.floor(((doc.markdown?.length || 0) / totalLength) * numTokens)`,
as exact arithmetic: `⌊len · numTokens / totalLength⌋`. -/
def tokensForDoc (numTokens totalLength : Nat) (doc : Document) : Nat :=
  docContentLength doc * numTokens / totalLength

/-- Source line 350: `docs.reduce((sum, doc) => sum + (doc.markdown?.length || 0), 0)`. -/
def totalContentLength (docs : List Document) : Nat :=
  docs.foldl (fun sum doc => sum + docContentLength doc) 0

/-- One step of the attribution loop (source lines 351–360): documents
without `sourceURL`, URLs without a trace, and traces without `contentStats`
are skipped; otherwise the trace's `tokensUsed` is set. -/
def attributeStep (numTokens totalLength : Nat) (acc : List URLTrace)
    (doc : Document) : List URLTrace :=
  match doc.sourceURL with
  | none => acc
  | some u =>
    updateTraceByUrl acc u (fun t =>
      match t.contentStats with
      | none => t
      | some cs =>
        let cs2 := { cs with tokensUsed := tokensForDoc numTokens totalLength doc }
        { t with contentStats := some cs2 })

/-- Source lines 347–361: when the completion reports a (truthy) token count,
attribute it to the source traces proportionally to raw content length. -/
def attributeTokenUsage (docs : List Document) (traces : List URLTrace)
    (numTokens : Nat) : List URLTrace :=
  if numTokens ≠ 0 then
    docs.foldl (attributeStep numTokens (totalContentLength docs)) traces
  else traces

/-! ### The orchestrator (source lines 48–398) -/

def noLinksErrorMessage : String :=
  "No valid URLs found to scrape. Try adjusting your search criteria or including more URLs."

inductive ExtractOutcome where
  | failure (status : Nat) (error : String) (urlTrace : List URLTrace)
  | success (data warning : Option String) (urlTrace : List URLTrace)
deriving DecidableEq, Repr

/-- The trace ledger carried by either outcome. -/
def ExtractOutcome.urlTrace : ExtractOutcome → List URLTrace
  | .failure _ _ t => t
  | .success _ _ t => t

/-- The whole pipeline: resolution, the empty-links terminal guard (source
lines 250–257), the fetch stage, the completion call and token attribution,
and the final response.  Billing and job logging are fire-and-forget and have
no observable effect on the response. -/
def extractPipeline (env : ResolveEnv) (fenv : FetchEnv)
    (body : ExtractRequest) : ExtractOutcome :=
  let (links, urlTraces) := resolveLinks env body
  if links.length = 0 then .failure 400 noLinksErrorMessage urlTraces
  else
    let (docs, _removed, urlTraces) := runScrapeStage fenv links urlTraces
    let completions := fenv.completions docs
    let urlTraces := attributeTokenUsage docs urlTraces completions.numTokens
    .success completions.extract completions.warning urlTraces

/-! ### Helper lemmas about the cascade -/

theorem mem_insertByScoreDesc {x a : LinkScore} {l : List LinkScore} :
    x ∈ insertByScoreDesc a l ↔ x = a ∨ x ∈ l := by
  induction l with
  | nil => simp [insertByScoreDesc]
  | cons y ys ih =>
    by_cases h : y.score ≤ a.score
    · simp [insertByScoreDesc, h]
    · simp [insertByScoreDesc, h, ih]
      tauto

theorem mem_sortByScoreDesc {x : LinkScore} {s : List LinkScore} :
    x ∈ sortByScoreDesc s ↔ x ∈ s := by
  induction s with
  | nil => simp [sortByScoreDesc]
  | cons y ys ih => simp [sortByScoreDesc, mem_insertByScoreDesc, ih]

theorem insertByScoreDesc_ne_nil (a : LinkScore) (l : List LinkScore) :
    insertByScoreDesc a l ≠ [] := by
  cases l with
  | nil => simp [insertByScoreDesc]
  | cons y ys =>
    by_cases h : y.score ≤ a.score <;> simp [insertByScoreDesc, h]

theorem sortByScoreDesc_eq_nil_iff {s : List LinkScore} :
    sortByScoreDesc s = [] ↔ s = [] := by
  cases s with
  | nil => simp [sortByScoreDesc]
  | cons y ys => simp [sortByScoreDesc, insertByScoreDesc_ne_nil]

/-- The cascade, phrased as the spec's ordered fallback chain.  This is the
bridge between the source's `length < MIN_REQUIRED_LINKS` / `length === 0`
tests and emptiness of the accepted sets. -/
theorem selectRelevantLinks_eq (bl : String → Bool) (m : List MapDocument)
    (s : List LinkScore) :
    selectRelevantLinks bl m s =
      (if filterAndProcessLinks bl m s INITIAL_SCORE_THRESHOLD = [] then
        (if filterAndProcessLinks bl m s FALLBACK_SCORE_THRESHOLD = [] then
          takeTopLinks bl m s
         else filterAndProcessLinks bl m s FALLBACK_SCORE_THRESHOLD)
       else filterAndProcessLinks bl m s INITIAL_SCORE_THRESHOLD) := by
  by_cases h1 : filterAndProcessLinks bl m s INITIAL_SCORE_THRESHOLD = []
  · by_cases h2 : filterAndProcessLinks bl m s FALLBACK_SCORE_THRESHOLD = [] <;>
      simp [selectRelevantLinks, h1, h2, MIN_REQUIRED_LINKS, Nat.lt_one_iff,
        List.length_eq_zero]
  · simp [selectRelevantLinks, h1, MIN_REQUIRED_LINKS, Nat.lt_one_iff,
      List.length_eq_zero]

/-! ### C1 — the cascading acceptance policy -/

/-- C1: the accepted set follows the cascading policy — all candidates above
0.75; if none, all above 0.5; if still none, the single highest-scoring
candidate (excluding blocked URLs); and on the three concrete score sets of
the spec the results are `{a}`, `{a, b}` and `{a}` respectively. -/
theorem c1_threshold_cascade :
    (∀ (bl : String → Bool) (m : List MapDocument) (s : List LinkScore),
      selectRelevantLinks bl m s =
        (if filterAndProcessLinks bl m s INITIAL_SCORE_THRESHOLD = [] then
          (if filterAndProcessLinks bl m s FALLBACK_SCORE_THRESHOLD = [] then
            takeTopLinks bl m s
           else filterAndProcessLinks bl m s FALLBACK_SCORE_THRESHOLD)
         else filterAndProcessLinks bl m s INITIAL_SCORE_THRESHOLD)) ∧
    selectRelevantLinks (fun _ => false)
      [⟨"https://s.com/a", "", ""⟩, ⟨"https://s.com/b", "", ""⟩, ⟨"https://s.com/c", "", ""⟩]
      [⟨"https://s.com/a", "https://s.com/a", mkRat 8 10, 0⟩,
       ⟨"https://s.com/b", "https://s.com/b", mkRat 6 10, 1⟩,
       ⟨"https://s.com/c", "https://s.com/c", mkRat 3 10, 2⟩]
      = [⟨"https://s.com/a", "", ""⟩] ∧
    selectRelevantLinks (fun _ => false)
      [⟨"https://s.com/a", "", ""⟩, ⟨"https://s.com/b", "", ""⟩]
      [⟨"https://s.com/a", "https://s.com/a", mkRat 6 10, 0⟩,
       ⟨"https://s.com/b", "https://s.com/b", mkRat 55 100, 1⟩]
      = [⟨"https://s.com/a", "", ""⟩, ⟨"https://s.com/b", "", ""⟩] ∧
    selectRelevantLinks (fun _ => false)
      [⟨"https://s.com/a", "", ""⟩, ⟨"https://s.com/b", "", ""⟩]
      [⟨"https://s.com/a", "https://s.com/a", mkRat 2 10, 0⟩,
       ⟨"https://s.com/b", "https://s.com/b", mkRat 1 10, 1⟩]
      = [⟨"https://s.com/a", "", ""⟩] :=
  ⟨selectRelevantLinks_eq, by decide, by decide, by decide⟩

/-! ### C5 — non-emptiness of the accepted set -/

/-- C5 counterexample: a non-empty candidate list whose single (highest-
scoring) candidate is blocked yields an empty accepted set — the top-1
fallback excludes blocked URLs, so the filter does not guarantee a non-empty
output on non-empty input. -/
theorem c5_counterexample :
    ([⟨"https://blocked.com", "", ""⟩] : List MapDocument) ≠ [] ∧
    selectRelevantLinks (fun u => u == "https://blocked.com")
      [⟨"https://blocked.com", "", ""⟩]
      [⟨"https://blocked.com", "https://blocked.com", mkRat 2 10, 0⟩] = [] := by
  decide

/-- C5 (amended): the accepted set is non-empty whenever the scored candidate
list is non-empty, provided every scored link resolves to a mapped candidate
and no scored link is blocked. -/
theorem c5_nonempty_amended (bl : String → Bool) (m : List MapDocument)
    (s : List LinkScore) (hne : s ≠ [])
    (hfind : ∀ x ∈ s, (m.find? (fun link => link.url == x.link)).isSome)
    (hbl : ∀ x ∈ s, bl x.link = false) :
    selectRelevantLinks bl m s ≠ [] := by
  rw [selectRelevantLinks_eq]
  by_cases h1 : filterAndProcessLinks bl m s INITIAL_SCORE_THRESHOLD = []
  · by_cases h2 : filterAndProcessLinks bl m s FALLBACK_SCORE_THRESHOLD = []
    · simp only [h1, h2, if_true]
      -- the top-1 fallback: the head of the descending sort survives
      obtain ⟨t, ts, hs⟩ : ∃ t ts, sortByScoreDesc s = t :: ts := by
        cases hsort : sortByScoreDesc s with
        | nil => exact absurd (sortByScoreDesc_eq_nil_iff.mp hsort) hne
        | cons t ts => exact ⟨t, ts, rfl⟩
      have htmem : t ∈ s := mem_sortByScoreDesc.mp (hs ▸ List.mem_cons_self t ts)
      obtain ⟨d, hd⟩ : ∃ d, m.find? (fun link => link.url == t.link) = some d := by
        have := hfind t htmem
        cases hfd : m.find? (fun link => link.url == t.link) with
        | none => rw [hfd] at this; simp at this
        | some d => exact ⟨d, rfl⟩
      have hdurl : d.url = t.link := by
        have := List.find?_some hd
        simpa using this
      intro hcon
      rw [takeTopLinks, hs] at hcon
      simp only [MIN_REQUIRED_LINKS, List.take_succ_cons, List.take_zero,
        List.filterMap_cons, hd, List.filterMap_nil] at hcon
      rw [List.filter_eq_nil_iff] at hcon
      have := hcon d (by simp)
      rw [hdurl, hbl t htmem] at this
      simp at this
    · simp only [h1, h2, if_true, if_false]
      exact h2
  · simp only [h1, if_false]
    exact h1

/-- C5 witness: the amended theorem applied to a concrete one-candidate,
unblocked input. -/
theorem c5_nonempty_witness :
    selectRelevantLinks (fun _ => false) [⟨"https://s.com/a", "", ""⟩]
      [⟨"https://s.com/a", "https://s.com/a", mkRat 2 10, 0⟩] ≠ [] :=
  c5_nonempty_amended (fun _ => false) [⟨"https://s.com/a", "", ""⟩]
    [⟨"https://s.com/a", "https://s.com/a", mkRat 2 10, 0⟩]
    (by decide) (by decide) (by decide)

/-! ### C7 — the effective fetch timeout -/

/-- C7 counterexample: with a zero (falsy) request timeout the code
substitutes the default request timeout 40000 before scaling and yields
`⌊40000 · 0.7⌋ = 28000`, not the fixed default 30000 the claim names for
this case. -/
theorem c7_counterexample :
    computeTimeout (some 0) = 28000 ∧ computeTimeout none = 28000 ∧
    (28000 : Nat) ≠ 30000 := by
  decide

/-- C7 (amended): the effective timeout is `⌊requestTimeout · 0.7⌋` for a
truthy request timeout of at least 2 ms; a missing or zero request timeout is
first replaced by 40000 (giving 28000), and the fixed default 30000 is used
exactly when the scaled value itself is 0, i.e. for a request timeout of 1. -/
theorem c7_timeout_amended (n : Nat) (h : 2 ≤ n) :
    computeTimeout none = 28000 ∧ computeTimeout (some 0) = 28000 ∧
    computeTimeout (some 1) = 30000 ∧ computeTimeout (some n) = n * 7 / 10 := by
  refine ⟨by decide, by decide, by decide, ?_⟩
  have hn0 : ¬ n = 0 := by omega
  have hpos : ¬ n * 7 / 10 = 0 := by
    have h10 : 1 * 10 ≤ n * 7 := by omega
    have := (Nat.le_div_iff_mul_le (by norm_num : 0 < 10)).mpr h10
    omega
  simp [computeTimeout, hn0, hpos]

/-- C7 witness: the amended theorem at a 100 ms request timeout. -/
theorem c7_timeout_witness :
    (2 : Nat) ≤ 100 ∧ computeTimeout (some 100) = 70 := by
  refine ⟨by decide, ?_⟩
  have h := (c7_timeout_amended 100 (by decide)).2.2.2
  simpa using h

/-! ### C8 — queue release of fetch jobs -/

/-- C8 counterexample: when the wait for the job fails, the `catch` of the
scrape task is taken before `getScrapeQueue().remove(jobId)` is reached, so
the job is not released — the release is not unconditional. -/
theorem c8_counterexample :
    (scrapeOne
        { waitForJob := fun _ => .error "Job wait timed out",
          completions := fun _ => {}, now := "t1" }
        "https://s.com/a" []).1.removedFromQueue = false := by
  decide

/-- C8 (amended): the job is released from the queue exactly when the wait
resolves successfully; on failure or timeout the release is skipped. -/
theorem c8_release_amended (fenv : FetchEnv) (url : String)
    (traces : List URLTrace) :
    (scrapeOne fenv url traces).1.removedFromQueue =
      (fenv.waitForJob url).toOption.isSome := by
  unfold scrapeOne
  cases fenv.waitForJob url <;> simp [Except.toOption]

/-! ### C2 — the empty-links terminal guard -/

/-- C2: when zero URLs survive resolution, the pipeline terminates with a
status-400 failure carrying the accumulated trace ledger, and it does so for
every fetch environment — the fetch stage (job submission, waiting, queue
interaction) is never consulted. -/
theorem c2_no_links_short_circuit (env : ResolveEnv) (body : ExtractRequest)
    (h : (resolveLinks env body).1 = []) :
    ∀ fenv : FetchEnv, extractPipeline env fenv body =
      .failure 400 noLinksErrorMessage (resolveLinks env body).2 := by
  intro fenv
  unfold extractPipeline
  rcases hres : resolveLinks env body with ⟨links, traces⟩
  rw [hres] at h
  simp only at h
  subst h
  simp

/-- C2 witness: a single blocked direct URL resolves to nothing and the
pipeline returns the 400 outcome with the error trace, for an arbitrary
concrete fetch environment. -/
theorem c2_no_links_witness :
    extractPipeline
      { isUrlBlocked := fun _ => true, rephrase := fun _ _ => none,
        getMapResults := fun _ _ => .error "discovery unavailable",
        performRanking := fun _ _ _ => .error "ranking unavailable", now := "t0" }
      { waitForJob := fun _ => .error "never reached",
        completions := fun _ => {}, now := "t1" }
      { urls := ["https://a.com"] } =
      .failure 400 noLinksErrorMessage
        (resolveLinks
          { isUrlBlocked := fun _ => true, rephrase := fun _ _ => none,
            getMapResults := fun _ _ => .error "discovery unavailable",
            performRanking := fun _ _ _ => .error "ranking unavailable", now := "t0" }
          { urls := ["https://a.com"] }).2 :=
  c2_no_links_short_circuit _ _ (by decide) _

/-! ### C10 — deduplication of resolved URLs -/

/-- C10 counterexample: two glob inputs whose discovery returns the same
link; the per-input results are only deduplicated within one input, so the
final resolved list handed to the fetch stage contains the URL twice. -/
theorem c10_counterexample :
    (resolveLinks
        { isUrlBlocked := fun _ => false, rephrase := fun _ _ => none,
          getMapResults := fun _ _ =>
            .ok { mapResults := [], links := ["https://shared.com/page"] },
          performRanking := fun _ _ _ => .error "unused", now := "t0" }
        { urls := ["https://a.com/*", "https://b.com/*"] }).1 =
      ["https://shared.com/page", "https://shared.com/page"] ∧
    ¬ List.Pairwise (fun a b => normalizeUrl a ≠ normalizeUrl b)
        ["https://shared.com/page", "https://shared.com/page"] := by
  constructor
  · decide
  · intro hp
    have := List.rel_of_pairwise_cons hp (List.mem_singleton.mpr rfl)
    exact this rfl

/-- C10 (amended): deduplication does hold within a single input URL's
discovery — `removeDuplicateUrls` never returns two entries that agree up to
case and trailing-slash normalization — but the flattened cross-input list is
not deduplicated again. -/
theorem c10_dedup_amended (urls : List String) :
    List.Pairwise (fun a b => normalizeUrl a ≠ normalizeUrl b)
      (removeDuplicateUrls urls) := by
  suffices h : ∀ (us : List String) (acc : List String),
      List.Pairwise (fun a b => normalizeUrl a ≠ normalizeUrl b) acc →
      List.Pairwise (fun a b => normalizeUrl a ≠ normalizeUrl b)
        (us.foldl
          (fun acc u =>
            if acc.any (fun v => normalizeUrl v == normalizeUrl u) then acc
            else acc ++ [u]) acc) by
    exact h urls [] (by simp)
  intro us
  induction us with
  | nil => intro acc hacc; simpa using hacc
  | cons u rest ih =>
    intro acc hacc
    simp only [List.foldl_cons]
    by_cases hmem : acc.any (fun v => normalizeUrl v == normalizeUrl u) = true
    · rw [if_pos hmem]; exact ih acc hacc
    · rw [if_neg hmem]
      refine ih (acc ++ [u]) ?_
      rw [List.pairwise_append]
      refine ⟨hacc, by simp, ?_⟩
      intro a ha b hb
      rw [List.mem_singleton] at hb
      rw [hb]
      have hfalse : acc.any (fun v => normalizeUrl v == normalizeUrl u) = false :=
        Bool.eq_false_iff.mpr hmem
      have := List.any_eq_false.mp hfalse a ha
      simpa using this

/-! ### C4 — proportional token attribution -/

theorem totalContentLength_eq (docs : List Document) :
    totalContentLength docs = (docs.map docContentLength).sum := by
  suffices h : ∀ (l : List Document) (n : Nat),
      l.foldl (fun s d => s + docContentLength d) n = n + (l.map docContentLength).sum by
    simpa using h docs 0
  intro l
  induction l with
  | nil => intro n; simp
  | cons d ds ih =>
    intro n
    simp only [List.foldl_cons, List.map_cons, List.sum_cons, ih]
    omega

theorem div_add_div_le (a b k : Nat) : a / k + b / k ≤ (a + b) / k := by
  rcases Nat.eq_zero_or_pos k with hk | hk
  · subst hk; simp
  · rw [Nat.le_div_iff_mul_le hk, Nat.add_mul]
    exact Nat.add_le_add (Nat.div_mul_le_self a k) (Nat.div_mul_le_self b k)

theorem sum_map_mul_const (l : List Document) (c : Nat) :
    (l.map (fun d => docContentLength d * c)).sum = (l.map docContentLength).sum * c := by
  induction l with
  | nil => simp
  | cons d ds ih =>
    simp only [List.map_cons, List.sum_cons, ih]
    ring

theorem sum_div_le (ns : List Nat) (k : Nat) :
    (ns.map (fun a => a / k)).sum ≤ ns.sum / k := by
  induction ns with
  | nil => simp
  | cons a l ih =>
    simp only [List.map_cons, List.sum_cons]
    calc a / k + (l.map (fun a => a / k)).sum
        ≤ a / k + l.sum / k := Nat.add_le_add_left ih _
      _ ≤ (a + l.sum) / k := div_add_div_le a l.sum k

/-- The attributed token counts over a document list never exceed the
reported total, because each one is floored after scaling by its share of
the total raw length. -/
theorem attribution_sum_le (docs : List Document) (numTokens : Nat)
    (hL : 0 < totalContentLength docs) :
    (docs.map (fun d =>
      if d.sourceURL.isSome then
        tokensForDoc numTokens (totalContentLength docs) d
      else 0)).sum ≤ numTokens := by
  set L := totalContentLength docs with hLdef
  have h1 : (docs.map (fun d =>
      if d.sourceURL.isSome then tokensForDoc numTokens L d else 0)).sum ≤
      (docs.map (fun d => tokensForDoc numTokens L d)).sum := by
    apply List.sum_le_sum
    intro d _
    by_cases hsrc : d.sourceURL.isSome <;> simp [hsrc]
  have h2 : (docs.map (fun d => tokensForDoc numTokens L d)).sum =
      ((docs.map (fun d => docContentLength d * numTokens)).map (fun a => a / L)).sum := by
    simp [tokensForDoc, Function.comp_def]
  have h3 := sum_div_le (docs.map (fun d => docContentLength d * numTokens)) L
  have h4 : (docs.map (fun d => docContentLength d * numTokens)).sum = L * numTokens := by
    rw [hLdef, totalContentLength_eq, sum_map_mul_const, Nat.mul_comm]
  have h5 : L * numTokens / L = numTokens := Nat.mul_div_cancel_left numTokens hL
  calc (docs.map (fun d =>
      if d.sourceURL.isSome then tokensForDoc numTokens L d else 0)).sum
      ≤ (docs.map (fun d => tokensForDoc numTokens L d)).sum := h1
    _ = ((docs.map (fun d => docContentLength d * numTokens)).map (fun a => a / L)).sum := h2
    _ ≤ (docs.map (fun d => docContentLength d * numTokens)).sum / L := h3
    _ = L * numTokens / L := by rw [h4]
    _ = numTokens := h5

/-- The two documents of the spec's token-attribution example: raw lengths
100 and 300. -/
def exampleDocs : List Document :=
  [{ markdown := some ⟨List.replicate 100 'a'⟩, sourceURL := some "https://u1.com" },
   { markdown := some ⟨List.replicate 300 'b'⟩, sourceURL := some "https://u2.com" }]

/-- A post-fetch trace for the attribution example. -/
def exampleTrace (u : String) (len tok : Nat) : URLTrace :=
  { url := u, status := .scraped, timing := { discoveredAt := "t0" },
    usedInCompletion := some true,
    contentStats := some ⟨len, len, tok⟩ }

set_option maxRecDepth 4000 in
/-- C4: token attribution sets each sourced document's trace `tokensUsed` to
`⌊numTokens · rawLength / totalLength⌋`; on the spec's example (raw lengths
100 and 300, total 40 tokens) the attribution is 10 and 30; documents
without `sourceURL` are skipped; and the attributed values never sum to more
than the reported total. -/
theorem c4_token_attribution (docs : List Document) (numTokens : Nat)
    (hL : 0 < totalContentLength docs) :
    attributeTokenUsage exampleDocs
        [exampleTrace "https://u1.com" 100 0, exampleTrace "https://u2.com" 300 0] 40 =
      [exampleTrace "https://u1.com" 100 10, exampleTrace "https://u2.com" 300 30] ∧
    (∀ (t l : Nat) (acc : List URLTrace) (d : Document),
      d.sourceURL = none → attributeStep t l acc d = acc) ∧
    (docs.map (fun d =>
      if d.sourceURL.isSome then
        tokensForDoc numTokens (totalContentLength docs) d
      else 0)).sum ≤ numTokens := by
  refine ⟨by decide, ?_, attribution_sum_le docs numTokens hL⟩
  intro t l acc d hnone
  simp [attributeStep, hnone]

set_option maxRecDepth 4000 in
/-- C4 witness: the theorem applied to the spec's two-document example. -/
theorem c4_token_attribution_witness :
    0 < totalContentLength exampleDocs ∧
    (exampleDocs.map (fun d =>
      if d.sourceURL.isSome then
        tokensForDoc 40 (totalContentLength exampleDocs) d
      else 0)).sum ≤ 40 :=
  ⟨by decide, (c4_token_attribution exampleDocs 40 (by decide)).2.2⟩

/-! ### C3 — per-URL failure isolation during resolution -/

theorem list_modify_append {α : Type} (l : List α) (t : α) (rest : List α)
    (f : α → α) :
    (l ++ t :: rest).modify f l.length = l ++ f t :: rest := by
  induction l with
  | nil => simp [List.modify]
  | cons a as ih => simpa [List.modify, List.modifyTailIdx] using ih

theorem addDiscoveredTraces_extra (us : List String) (l : List URLTrace)
    (now : String) :
    ∃ extra, addDiscoveredTraces l us now = l ++ extra := by
  induction us generalizing l with
  | nil => exact ⟨[], by simp [addDiscoveredTraces]⟩
  | cons u us ih =>
    unfold addDiscoveredTraces at ih ⊢
    simp only [List.foldl_cons]
    by_cases h : l.any (fun t => t.url == u) = true
    · rw [if_pos h]; exact ih l
    · rw [if_neg h]
      obtain ⟨e2, he⟩ :=
        ih (l ++ [{ url := u, status := .mapped, timing := { discoveredAt := now },
                    usedInCompletion := some false }])
      refine ⟨{ url := u, status := .mapped, timing := { discoveredAt := now },
                usedInCompletion := some false } :: e2, ?_⟩
      rw [he, List.append_assoc]
      rfl

/-- The trace left behind for an input URL whose resolution failed with
message `msg`: its own entry is error-marked and excluded from completion. -/
def erroredInputTrace (url msg now : String) : URLTrace :=
  { url := url, status := .error, timing := { discoveredAt := now },
    usedInCompletion := some false, error := some msg }

theorem setTraceErrorAt_append (l : List URLTrace) (t : URLTrace)
    (rest : List URLTrace) (msg : String) :
    setTraceErrorAt (l ++ t :: rest) l.length msg =
      l ++ { t with status := .error, error := some msg, usedInCompletion := some false } :: rest := by
  unfold setTraceErrorAt
  exact list_modify_append l t rest _

theorem newTrace_errored (url msg now : String) :
    ({ newTrace url now with status := .error, error := some msg, usedInCompletion := some false } : URLTrace) =
      erroredInputTrace url msg now := rfl

theorem processUrls_length (env : ResolveEnv) (body : ExtractRequest) :
    (processUrls env body).1.length = body.urls.length := by
  unfold processUrls
  suffices h : ∀ (urls : List String) (acc : List (List String) × List URLTrace),
      (urls.foldl
        (fun acc url =>
          let r := processUrl env body url acc.2
          (acc.1 ++ [r.1], r.2)) acc).1.length = acc.1.length + urls.length by
    simpa using h body.urls ([], [])
  intro urls
  induction urls with
  | nil => intro acc; simp
  | cons u us ih =>
    intro acc
    simp only [List.foldl_cons]
    rw [ih]
    simp
    omega

/-- C3 counterexample: a prompt-rephrase failure (the completion collaborator
yields null) does not error-mark the trace or empty the result — the code
falls back to the original prompt and resolution proceeds normally, against
the claim that any resolution failure, including prompt-rephrase failure,
marks the trace `status=error` and contributes an empty result. -/
theorem c3_counterexample :
    (processUrl
        { isUrlBlocked := fun _ => false, rephrase := fun _ _ => none,
          getMapResults := fun _ _ =>
            .ok { mapResults := [], links := ["https://shared.com/page"] },
          performRanking := fun _ _ _ =>
            .ok [⟨"https://shared.com/page", "ctx", mkRat 9 10, 0⟩],
          now := "t0" }
        { urls := ["https://a.com/*"], prompt := some "find stuff" }
        "https://a.com/*" []).1 = ["https://shared.com/page"] ∧
    (∀ t ∈ (processUrl
        { isUrlBlocked := fun _ => false, rephrase := fun _ _ => none,
          getMapResults := fun _ _ =>
            .ok { mapResults := [], links := ["https://shared.com/page"] },
          performRanking := fun _ _ _ =>
            .ok [⟨"https://shared.com/page", "ctx", mkRat 9 10, 0⟩],
          now := "t0" }
        { urls := ["https://a.com/*"], prompt := some "find stuff" }
        "https://a.com/*" []).2, t.status ≠ TraceStatus.error) := by
  decide

/-- C3 (amended): failures thrown during one input URL's resolution —
discovery failure or ranking failure — and blocklist rejection of a direct
URL are caught at that URL's granularity: its own trace is marked
`status=error` with the message and `usedInCompletion=false`, the URL
contributes an empty result, previously accumulated traces are untouched,
and the request still produces one resolution result per input URL; a
prompt-rephrase failure is instead absorbed by falling back to the original
prompt. -/
theorem c3_per_url_isolation (env : ResolveEnv) (body : ExtractRequest)
    (url : String) (traces : List URLTrace) (e : String)
    (mo : MapResultsOutcome) :
    ((hasGlobPattern url || body.allowExternalLinks) = true →
      env.getMapResults (replaceFirst url "/*")
          (rephrasedPromptFor env body (replaceFirst url "/*")) = .error e →
      processUrl env body url traces =
        ([], traces ++ [erroredInputTrace url e env.now])) ∧
    ((hasGlobPattern url || body.allowExternalLinks) = true →
      truthy body.prompt = true →
      env.getMapResults (replaceFirst url "/*")
          (rephrasedPromptFor env body (replaceFirst url "/*")) = .ok mo →
      env.performRanking = (fun _ _ _ => .error e) →
      (processUrl env body url traces).1 = [] ∧
      (processUrl env body url traces).2.take traces.length = traces ∧
      (processUrl env body url traces).2[traces.length]? =
        some (erroredInputTrace url e env.now)) ∧
    ((hasGlobPattern url || body.allowExternalLinks) = false →
      env.isUrlBlocked url = true →
      processUrl env body url traces =
        ([], traces ++ [erroredInputTrace url "URL is blocked" env.now])) ∧
    (truthy body.prompt = true →
      env.rephrase (body.prompt.getD "") (replaceFirst url "/*") = none →
      rephrasedPromptFor env body (replaceFirst url "/*") =
        some (body.prompt.getD "")) ∧
    (processUrls env body).1.length = body.urls.length := by
  refine ⟨?_, ?_, ?_, ?_, processUrls_length env body⟩
  · intro hglob herr
    simp only [processUrl, hglob, if_true]
    simp only [processGlobUrl, herr]
    rw [show (traces ++ [newTrace url env.now]) = traces ++ newTrace url env.now :: [] from rfl,
      setTraceErrorAt_append, newTrace_errored]
  · intro hglob htr hmo hperf
    simp only [processUrl, hglob, if_true]
    simp only [processGlobUrl, hmo, htr, if_true, hperf]
    obtain ⟨extra, hextra⟩ :=
      addDiscoveredTraces_extra (discoveredUrls mo)
        (traces ++ [newTrace url env.now]) env.now
    rw [List.append_assoc, List.singleton_append] at hextra
    simp only [hextra]
    rw [setTraceErrorAt_append, newTrace_errored]
    refine ⟨by simp, ?_, ?_⟩
    · exact List.take_left traces _
    · rw [List.getElem?_append_right (Nat.le_refl _)]
      simp
  · intro hng hbl
    simp only [processUrl, hng, Bool.false_eq_true, if_false, hbl]
    simp only [Bool.not_true, Bool.false_eq_true, if_false]
    rw [show (traces ++ [newTrace url env.now]) = traces ++ newTrace url env.now :: [] from rfl,
      setTraceErrorAt_append, newTrace_errored]
  · intro htr hre
    simp [rephrasedPromptFor, htr, hre]

/-- C3 witness: a glob input whose discovery collaborator fails is isolated
to its own error-marked trace and contributes nothing. -/
theorem c3_per_url_isolation_witness :
    processUrl
      { isUrlBlocked := fun _ => false, rephrase := fun _ _ => none,
        getMapResults := fun _ _ => .error "map failed",
        performRanking := fun _ _ _ => .error "unused", now := "t0" }
      { urls := ["https://a.com/*"] } "https://a.com/*" [] =
      ([], [erroredInputTrace "https://a.com/*" "map failed" "t0"]) :=
  (c3_per_url_isolation
    { isUrlBlocked := fun _ => false, rephrase := fun _ _ => none,
      getMapResults := fun _ _ => .error "map failed",
      performRanking := fun _ _ _ => .error "unused", now := "t0" }
    { urls := ["https://a.com/*"] } "https://a.com/*" [] "map failed"
    { mapResults := [], links := [] }).1 (by decide) rfl

/-! ### C9 — gating of the relevance filter -/

/-- C9 counterexample: a request with a prompt whose discovery yields exactly
one candidate.  The source gates the filter on the prompt alone, so scoring
and filtering do run: the single candidate is scored (its trace receives a
`relevanceScore`) and, being blocked, is filtered out — rather than no
scoring or filtering occurring as the claim states for at-most-one
candidate. -/
theorem c9_counterexample :
    (candidateLinks { mapResults := [⟨"https://only.com", "", ""⟩], links := [] }
        "https://site.com").length = 1 ∧
    (processUrl
        { isUrlBlocked := fun u => u == "https://only.com",
          rephrase := fun _ _ => none,
          getMapResults := fun _ _ =>
            .ok { mapResults := [⟨"https://only.com", "", ""⟩], links := [] },
          performRanking := fun _ _ _ =>
            .ok [⟨"https://only.com", "ctx", mkRat 9 10, 0⟩],
          now := "t0" }
        { urls := ["https://site.com/*"], prompt := some "find stuff" }
        "https://site.com/*" []) =
      ([],
       [⟨"https://site.com/*", .mapped, ⟨"t0", none, none⟩, none, none, none, none, none⟩,
        ⟨"https://only.com", .mapped, ⟨"t0", none, none⟩, some (mkRat 9 10), some false,
          some "Relevance score below threshold", none, none⟩]) := by
  decide

/-- C9 (amended): the relevance filter — scoring, cascading acceptance, trace
score updates and top-10 truncation — runs if and only if the request carries
a truthy prompt, regardless of how many candidates discovery produced; with
no (or an empty) prompt the candidates pass through unscored and unfiltered. -/
theorem c9_filter_gating_amended (env : ResolveEnv) (body : ExtractRequest)
    (url : String) (traces : List URLTrace) (mo : MapResultsOutcome)
    (hglob : (hasGlobPattern url || body.allowExternalLinks) = true)
    (hmo : env.getMapResults (replaceFirst url "/*")
        (rephrasedPromptFor env body (replaceFirst url "/*")) = .ok mo) :
    (truthy body.prompt = false →
      processUrl env body url traces =
        ((candidateLinks mo (replaceFirst url "/*")).map (fun x => x.url),
         addDiscoveredTraces (traces ++ [newTrace url env.now]) (discoveredUrls mo) env.now)) ∧
    (∀ s, truthy body.prompt = true →
      env.performRanking (rerankContexts (candidateLinks mo (replaceFirst url "/*")))
          ((candidateLinks mo (replaceFirst url "/*")).map (fun l => l.url))
          (searchQueryFor body (replaceFirst (replaceFirst url "/*") "www.")) = .ok s →
      processUrl env body url traces =
        (((selectRelevantLinks env.isUrlBlocked
              (candidateLinks mo (replaceFirst url "/*")) s).take MAX_RANKING_LIMIT).map
            (fun x => x.url),
         (relevanceFilterStage env.isUrlBlocked (candidateLinks mo (replaceFirst url "/*")) s
            (addDiscoveredTraces (traces ++ [newTrace url env.now]) (discoveredUrls mo)
              env.now)).2)) := by
  constructor
  · intro hnp
    simp only [processUrl, hglob, if_true]
    simp only [processGlobUrl, hmo, hnp, Bool.false_eq_true, if_false]
  · intro s htr hrank
    simp only [processUrl, hglob, if_true]
    simp only [processGlobUrl, hmo, htr, if_true, hrank]
    rfl

/-- C9 witness: the amended theorem's no-prompt clause at a concrete glob
input — the discovered candidate passes through without scoring. -/
theorem c9_filter_gating_witness :
    processUrl
      { isUrlBlocked := fun _ => false, rephrase := fun _ _ => none,
        getMapResults := fun _ _ =>
          .ok { mapResults := [], links := ["https://shared.com/page"] },
        performRanking := fun _ _ _ => .error "unused", now := "t0" }
      { urls := ["https://a.com/*"] } "https://a.com/*" [] =
      ((candidateLinks { mapResults := [], links := ["https://shared.com/page"] }
          "https://a.com").map (fun x => x.url),
       addDiscoveredTraces ([] ++ [newTrace "https://a.com/*" "t0"])
         (discoveredUrls { mapResults := [], links := ["https://shared.com/page"] }) "t0") :=
  (c9_filter_gating_amended
    { isUrlBlocked := fun _ => false, rephrase := fun _ _ => none,
      getMapResults := fun _ _ =>
        .ok { mapResults := [], links := ["https://shared.com/page"] },
      performRanking := fun _ _ _ => .error "unused", now := "t0" }
    { urls := ["https://a.com/*"] } "https://a.com/*" []
    { mapResults := [], links := ["https://shared.com/page"] }
    (by decide) rfl).1 (by decide)

/-! ### C6 — the `usedInCompletion` / `status` invariant -/

/-- C6: a direct unblocked input URL is optimistically marked
`usedInCompletion=true` during resolution; when its fetch then fails, the
scrape task's catch sets `status=error` without clearing the flag, so the
final response carries a trace with `usedInCompletion=true` and
`status=error`, violating the claimed invariant. -/
theorem c6_invariant_code_bug :
    (extractPipeline
        { isUrlBlocked := fun _ => false, rephrase := fun _ _ => none,
          getMapResults := fun _ _ => .error "unused",
          performRanking := fun _ _ _ => .error "unused", now := "t0" }
        { waitForJob := fun _ => .error "Job wait timed out",
          completions := fun _ => {}, now := "t1" }
        { urls := ["https://ok.com"] }).urlTrace =
      [⟨"https://ok.com", .error, ⟨"t0", some "t1", none⟩, none, some true, none,
        some "Job wait timed out", none⟩] ∧
    (∃ t ∈ (extractPipeline
        { isUrlBlocked := fun _ => false, rephrase := fun _ _ => none,
          getMapResults := fun _ _ => .error "unused",
          performRanking := fun _ _ _ => .error "unused", now := "t0" }
        { waitForJob := fun _ => .error "Job wait timed out",
          completions := fun _ => {}, now := "t1" }
        { urls := ["https://ok.com"] }).urlTrace,
      t.usedInCompletion = some true ∧ t.status = .error) := by
  decide

end Extract
